import Mathlib

/-!
Shallow embedding of the browser-automation script (three source variants:
`src/index.js`, `src/unnamed/part_000`, `src/unnamed/part_001`).

The DOM is modelled as a list of elements in document order.  Playwright
locators and CSS selectors are modelled as boolean predicates on elements;
`loc.count()` is the number of matching elements, `loc.first()` the first
match in document order.  Geometry is modelled over naturals (the claims at
stake depend only on the `width > 1 && height > 1` visibility test and not
on fractional pixel values).
-/

namespace UseBrowser

/-- A DOM element: tag name (lower case), relevant attributes / DOM
properties, rendered text, and bounding-client-rect geometry.
`typeAttr` models the element's `type` property / attribute, `text` its
`innerText`, `value` / `titleAttr` / `ariaLabel` / `forAttr` the
corresponding attributes (`none` when absent). -/
structure Elem where
  tag : String
  typeAttr : Option String := none
  nameAttr : Option String := none
  idAttr : Option String := none
  placeholder : Option String := none
  ariaLabel : Option String := none
  titleAttr : Option String := none
  forAttr : Option String := none
  dataTestid : Option String := none
  value : Option String := none
  text : String := ""
  left : Nat := 0
  top : Nat := 0
  width : Nat := 0
  height : Nat := 0
deriving Repr, DecidableEq

/-- A page's DOM: its elements in document order. -/
abbrev Dom := List Elem

/-- A selector strategy: a structural query, as a predicate on elements. -/
abbrev Sel := Elem → Bool

/-- Occurrence of `pat` inside `s` as a list of characters
(JavaScript `String.prototype.includes`). -/
def subOccurs (pat : List Char) : List Char → Bool
  | [] => pat.isEmpty
  | c :: rest => pat.isPrefixOf (c :: rest) || subOccurs pat rest

/-- The characters of `s` lowercased (JavaScript `toLowerCase`). -/
def lowerChars (s : String) : List Char :=
  s.toList.map Char.toLower

/-- Case-insensitive substring test: `pat` occurs in `s`.  This is the
matching used by Playwright unquoted `text=` / `:has-text()` engines and by
CSS `[attr*="pat" i]` attribute selectors. -/
def ciContains (s pat : String) : Bool :=
  subOccurs (lowerChars pat) (lowerChars s)

/-- CSS `[attr*="pat" i]` on an optional attribute: absent attribute never
matches. -/
def attrCiContains (a : Option String) (pat : String) : Bool :=
  match a with
  | some v => ciContains v pat
  | none => false

/-- CSS `[attr="v" i]` (case-insensitive exact value). -/
def attrCiEq (a : Option String) (v : String) : Bool :=
  match a with
  | some w => lowerChars w == lowerChars v
  | none => false

/-- `page.locator(sel).count()` : number of DOM elements matching `sel`. -/
def countMatches (dom : Dom) (sel : Sel) : Nat :=
  (dom.filter sel).length

/-- The element-resolution loop shared by `clickSidebar.execute` and by each
field of `fillSignupForm.execute` (part_000 lines 98-108 and 167-183): walk
the candidate selectors in declared order and act on the first one whose
element count is greater than zero, taking that candidate's first element in
document order.  Returns the declared index of the winning candidate
(offset by the accumulator `n`) together with the element acted on. -/
def resolveIdx (dom : Dom) (n : Nat) : List Sel → Option (Nat × Elem)
  | [] => none
  | sel :: rest =>
    match dom.find? sel with
    | some e => some (n, e)
    | none => resolveIdx dom (n + 1) rest

/-- Resolution keeping only the element acted on. -/
def resolveElem (dom : Dom) (sels : List Sel) : Option Elem :=
  (resolveIdx dom 0 sels).map (fun p => p.2)

/- ----------------- Session handle (launchBrowser / closeBrowser) ------- -/

/-- The (browser, page) pair; identities are modelled by fresh numeric ids
so that "same underlying page reference" is expressible. -/
structure BrowserPage where
  browserId : Nat
  pageId : Nat
deriving Repr, DecidableEq

/-- Result of a `launchBrowser()` call: the returned pair, the module-level
session state after the call, and the next fresh id for object identities. -/
structure LaunchOut where
  pair : BrowserPage
  state : Option BrowserPage
  fresh : Nat
deriving Repr, DecidableEq

/-- `launchBrowser` (part_000 lines 16-22, index.js lines 18-28): if the
module-level `browser` is unset, launch a new browser and page and memoize
them; in every case return the memoized pair. -/
def launchBrowser (st : Option BrowserPage) (fresh : Nat) : LaunchOut :=
  match st with
  | some bp => { pair := bp, state := some bp, fresh := fresh }
  | none =>
    let bp : BrowserPage := { browserId := fresh, pageId := fresh + 1 }
    { pair := bp, state := some bp, fresh := fresh + 2 }

/-- `closeBrowser` (part_000 lines 23-28): drop the memoized pair. -/
def closeBrowser (st : Option BrowserPage) : Option BrowserPage :=
  match st with
  | some _ => none
  | none => none

/- ----------------- Resolver lemmas ----------------- -/

theorem countMatches_eq_zero_iff (dom : Dom) (s : Sel) :
    countMatches dom s = 0 ↔ dom.find? s = none := by
  unfold countMatches
  rw [List.length_eq_zero, List.filter_eq_nil_iff, List.find?_eq_none]

theorem countMatches_pos_iff (dom : Dom) (s : Sel) :
    0 < countMatches dom s ↔ (dom.find? s).isSome = true := by
  rw [Nat.pos_iff_ne_zero, Ne, countMatches_eq_zero_iff]
  cases h : dom.find? s <;> simp [h]

theorem resolveIdx_append (dom : Dom) (s : Sel) (post : List Sel) (e : Elem)
    (hs : dom.find? s = some e) :
    ∀ (pre : List Sel) (n : Nat), (∀ t ∈ pre, dom.find? t = none) →
      resolveIdx dom n (pre ++ s :: post) = some (n + pre.length, e) := by
  intro pre
  induction pre with
  | nil =>
    intro n _
    simp [resolveIdx, hs]
  | cons t rest ih =>
    intro n hnone
    have ht : dom.find? t = none := hnone t (List.mem_cons_self t rest)
    simp only [List.cons_append, resolveIdx, ht, List.append_eq]
    rw [ih (n + 1) (fun u hu => hnone u (List.mem_cons_of_mem t hu))]
    simp [Nat.add_assoc, Nat.add_comm 1]

theorem resolveIdx_all_none (dom : Dom) :
    ∀ (sels : List Sel) (n : Nat), (∀ t ∈ sels, dom.find? t = none) →
      resolveIdx dom n sels = none := by
  intro sels
  induction sels with
  | nil => intro n _; rfl
  | cons t rest ih =>
    intro n hnone
    have ht : dom.find? t = none := hnone t (List.mem_cons_self t rest)
    simp only [resolveIdx, ht]
    exact ih (n + 1) (fun u hu => hnone u (List.mem_cons_of_mem t hu))

/- ----------------- C1 ----------------- -/

/-- Claim C1: for every ordered selector strategy list and every DOM, the
element resolver shared by click_sidebar and the fill_signup_form fields
evaluates the candidates in declared order and acts on the first candidate
whose element count is greater than zero, ignoring every later candidate
(`post` is arbitrary): it returns that candidate's declared position
together with the first matching element in document order. -/
theorem c1_resolver_first_match (dom : Dom) (pre : List Sel) (s : Sel)
    (post : List Sel)
    (hpre : ∀ t ∈ pre, countMatches dom t = 0)
    (hs : 0 < countMatches dom s) :
    resolveIdx dom 0 (pre ++ s :: post) =
      (dom.find? s).map (fun e => (pre.length, e)) := by
  have hpre' : ∀ t ∈ pre, dom.find? t = none := fun t ht =>
    (countMatches_eq_zero_iff dom t).mp (hpre t ht)
  obtain ⟨e, he⟩ := Option.isSome_iff_exists.mp ((countMatches_pos_iff dom s).mp hs)
  have := resolveIdx_append dom s post e he pre 0 hpre'
  simpa [he] using this

/-- Concrete selector candidates for the C1 witness DOM. -/
def c1SelA : Sel := fun e => e.tag == "a"

def c1SelB : Sel := fun e => e.tag == "button"

def c1SelC : Sel := fun e => e.tag == "input"

def c1SelD : Sel := fun e => ciContains e.text "sub"

def c1Btn : Elem := { tag := "button", text := "Submit", width := 10, height := 10 }

def c1Dom : Dom := [c1Btn]

/-- Witness for C1, instantiating the claim's "in particular" case: with
candidates at declared positions 1..4 and a DOM matching candidates 2 and 4,
resolution acts on candidate 2 (index 1) and ignores candidate 4. -/
theorem c1_resolver_first_match_witness :
    resolveIdx c1Dom 0 [c1SelA, c1SelB, c1SelC, c1SelD] = some (1, c1Btn) ∧
      0 < countMatches c1Dom c1SelD := by
  refine ⟨?_, by decide⟩
  have h := c1_resolver_first_match c1Dom [c1SelA] c1SelB [c1SelC, c1SelD]
    (by decide) (by decide)
  simpa using h

/- ----------------- C7 ----------------- -/

/-- Claim C7: session acquisition is idempotent: the first launchBrowser
call creates the (browser, page) pair and every subsequent call returns the
same pair without relaunching — a second call returns the first call's pair,
leaves the memoized state unchanged, and allocates no fresh object ids. -/
theorem c7_launch_idempotent (st : Option BrowserPage) (fresh : Nat) :
    launchBrowser (launchBrowser st fresh).state (launchBrowser st fresh).fresh =
      launchBrowser st fresh := by
  cases st <;> rfl

/- ----------------- click_sidebar (part_000 lines 90-114) ----------------- -/

/-- Playwright `text=label` (unquoted): case-insensitive substring match on
the element's text. -/
def textSel (label : String) : Sel := fun e => ciContains e.text label

/-- Playwright `a:has-text("label")`. -/
def aHasText (label : String) : Sel := fun e =>
  e.tag == "a" && ciContains e.text label

/-- Playwright `button:has-text("label")`. -/
def buttonHasText (label : String) : Sel := fun e =>
  e.tag == "button" && ciContains e.text label

/-- The ordered candidate list of `clickSidebar.execute` (part_000 line 97). -/
def sidebarSelectors (label : String) : List Sel :=
  [textSel label, aHasText label, buttonHasText label]

/-- The structured result of `clickSidebar.execute`. -/
structure ClickResult where
  success : Bool
  clicked : Option String
  selectorIdx : Option Nat
  error : Option String
deriving Repr, DecidableEq

/-- `clickSidebar.execute` (part_000 lines 94-113): resolve the label's
candidate selectors in order; on the first candidate with a positive count,
click its first element and return `{success:true, clicked:label, selector}`;
if none matches, return `{success:false, error:"not_found"}`. -/
def clickSidebarExecute (label : String) (dom : Dom) : ClickResult :=
  match resolveIdx dom 0 (sidebarSelectors label) with
  | some (i, _) =>
    { success := true, clicked := some label, selectorIdx := some i, error := none }
  | none =>
    { success := false, clicked := none, selectorIdx := none, error := some "not_found" }

/-- An anchor whose text contains "Sign Up", and its singleton DOM. -/
def c5Anchor : Elem :=
  { tag := "a", text := "Go to Sign Up page", width := 120, height := 20 }

def c5Dom : Dom := [c5Anchor]

/- ------------- fill_signup_form (part_000 lines 117-195) ------------- -/

/-- `input` tag test shared by the field selectors. -/
def inputTag : Sel := fun e => e.tag == "input"

/-- `input[name*="first" i]`. -/
def fnSelName : Sel := fun e => inputTag e && attrCiContains e.nameAttr "first"

/-- `#firstName` (CSS id selectors are case-sensitive). -/
def fnSelId : Sel := fun e => e.idAttr == some "firstName"

/-- `input[placeholder*="first" i]`. -/
def fnSelPlaceholder : Sel := fun e =>
  inputTag e && attrCiContains e.placeholder "first"

/-- `input[name*="last" i]`. -/
def lnSelName : Sel := fun e => inputTag e && attrCiContains e.nameAttr "last"

/-- `#lastName`. -/
def lnSelId : Sel := fun e => e.idAttr == some "lastName"

/-- `input[placeholder*="last" i]`. -/
def lnSelPlaceholder : Sel := fun e =>
  inputTag e && attrCiContains e.placeholder "last"

/-- `input[type="email"]`. -/
def emSelType : Sel := fun e => inputTag e && e.typeAttr == some "email"

/-- `input[name="email" i]`. -/
def emSelName : Sel := fun e => inputTag e && attrCiEq e.nameAttr "email"

/-- `#email`. -/
def emSelId : Sel := fun e => e.idAttr == some "email"

/-- `input[placeholder*="email" i]`. -/
def emSelPlaceholder : Sel := fun e =>
  inputTag e && attrCiContains e.placeholder "email"

/-- `input[name="password" i]`. -/
def pwSelName : Sel := fun e => inputTag e && attrCiEq e.nameAttr "password"

/-- `#password`. -/
def pwSelId : Sel := fun e => e.idAttr == some "password"

/-- `input[placeholder*="password" i]` — note: no exclusion of "confirm". -/
def pwSelPlaceholder : Sel := fun e =>
  inputTag e && attrCiContains e.placeholder "password"

/-- `input[type="password"]:not([name*="confirm" i]):not([id*="confirm" i]):not([placeholder*="confirm" i])`
— the single password candidate that excludes confirm attributes. -/
def pwSelTyped : Sel := fun e =>
  inputTag e && e.typeAttr == some "password"
    && !attrCiContains e.nameAttr "confirm"
    && !attrCiContains e.idAttr "confirm"
    && !attrCiContains e.placeholder "confirm"

/-- `input[name*="confirm" i]`. -/
def cpSelName : Sel := fun e => inputTag e && attrCiContains e.nameAttr "confirm"

/-- `#confirmPassword`. -/
def cpSelId : Sel := fun e => e.idAttr == some "confirmPassword"

/-- `input[placeholder*="confirm" i]`. -/
def cpSelPlaceholder : Sel := fun e =>
  inputTag e && attrCiContains e.placeholder "confirm"

/-- Ordered strategy list for the `firstName` field (part_000 lines 137-141). -/
def firstNameSelectors : List Sel := [fnSelName, fnSelId, fnSelPlaceholder]

/-- Ordered strategy list for the `lastName` field (part_000 lines 142-146). -/
def lastNameSelectors : List Sel := [lnSelName, lnSelId, lnSelPlaceholder]

/-- Ordered strategy list for the `email` field (part_000 lines 147-152). -/
def emailSelectors : List Sel := [emSelType, emSelName, emSelId, emSelPlaceholder]

/-- Ordered strategy list for the `password` field (part_000 lines 153-158). -/
def passwordSelectors : List Sel :=
  [pwSelName, pwSelId, pwSelPlaceholder, pwSelTyped]

/-- Ordered strategy list for the `confirmPassword` field
(part_000 lines 159-163). -/
def confirmSelectors : List Sel := [cpSelName, cpSelId, cpSelPlaceholder]

/-- Parameters of `fill_signup_form`; the zod defaults are the values below. -/
structure SignupVals where
  firstName : String := "Test"
  lastName : String := "User"
  email : String := "test@example.com"
  password : String := "StrongPass123"
  confirmPassword : String := "StrongPass123"
deriving Repr, DecidableEq

/-- `vals[field.name]` lookup. -/
def valOf (v : SignupVals) : String → String
  | "firstName" => v.firstName
  | "lastName" => v.lastName
  | "email" => v.email
  | "password" => v.password
  | "confirmPassword" => v.confirmPassword
  | _ => ""

/-- The `fields` array of `fillSignupForm.execute` (part_000 lines 136-164):
semantic field name paired with its ordered selector strategy list. -/
def fieldDefs : List (String × List Sel) :=
  [("firstName", firstNameSelectors), ("lastName", lastNameSelectors),
   ("email", emailSelectors), ("password", passwordSelectors),
   ("confirmPassword", confirmSelectors)]

/-- The combined submit-button locator
`button[type="submit"], button:has-text("Sign Up"), button:has-text("Create Account")`
(part_000 line 185). -/
def submitSel : Sel := fun e =>
  (e.tag == "button" && e.typeAttr == some "submit")
    || (e.tag == "button" && ciContains e.text "Sign Up")
    || (e.tag == "button" && ciContains e.text "Create Account")

/-- A DOM interaction performed by `fillSignupForm.execute`. -/
inductive Action where
  | typed (field : String) (value : String) (target : Elem)
  | clickedSubmit (target : Elem)
deriving Repr, DecidableEq

/-- The structured result of `fillSignupForm.execute`: either
`{success:true, filled}` or `{success:false, error:msg}`. -/
inductive FillResult where
  | ok (filled : List (String × String))
  | err (msg : String)
deriving Repr, DecidableEq

/-- Whether a fill result is a `{success:true, ...}` result. -/
def FillResult.isOk : FillResult → Bool
  | .ok _ => true
  | .err _ => false

/-- Result, module-level `formSubmitted` flag after the call, and the list
of DOM interactions the call performed. -/
structure FillOutcome where
  result : FillResult
  submittedFlag : Bool
  actions : List Action
deriving Repr, DecidableEq

/-- The per-field fill loop of `fillSignupForm.execute` (part_000 lines
166-184): for each field, resolve its selector list and, on the first
candidate with a positive count, type the value into the first matching
element, record the field as filled and move on; a field with no matching
candidate is skipped silently. -/
def fillFieldsLoop (vals : SignupVals) (dom : Dom) :
    List (String × List Sel) → List (String × String) × List Action
  | [] => ([], [])
  | (fname, sels) :: rest =>
    let (filled, acts) := fillFieldsLoop vals dom rest
    match resolveElem dom sels with
    | some e =>
      ((fname, valOf vals fname) :: filled,
        Action.typed fname (valOf vals fname) e :: acts)
    | none => (filled, acts)

/-- `fillSignupForm.execute` (part_000 lines 130-194): reject immediately
when the module-level `formSubmitted` flag is set, performing no DOM
interaction; otherwise fill each field through the resolver, click the first
submit-button match when one exists, set `formSubmitted` unconditionally and
return `{success:true, filled}`. -/
def fillSignupFormExecute (submitted : Bool) (vals : SignupVals) (dom : Dom) :
    FillOutcome :=
  if submitted then
    { result := .err "Form already submitted", submittedFlag := submitted,
      actions := [] }
  else
    let (filled, acts) := fillFieldsLoop vals dom fieldDefs
    let submitActs : List Action :=
      match dom.find? submitSel with
      | some b => [Action.clickedSubmit b]
      | none => []
    { result := .ok filled, submittedFlag := true,
      actions := acts ++ submitActs }

/- ----------------- C2 ----------------- -/

/-- The zod default parameter values of `fill_signup_form`. -/
def defaultSignupVals : SignupVals := {}

/-- Counterexample to C2 as stated: on an empty DOM (no submit button at
all, `countMatches` of the submit locator is 0, and no click or type action
is performed), a first call still flips `formSubmitted` to `true` and its
result is a plain `{success:true, filled}` with no `submitted` field — so
the transition to the `submitted` state does not require a successful
submit-button click. -/
theorem c2_counterexample :
    (fillSignupFormExecute false defaultSignupVals []).submittedFlag = true ∧
    (fillSignupFormExecute false defaultSignupVals []).actions = [] ∧
    (fillSignupFormExecute false defaultSignupVals []).result = .ok [] ∧
    countMatches [] submitSel = 0 := by
  decide

/-- Claim C2 (amended): fill_signup_form is a one-way, session-permanent
state machine over {not-submitted, submitted}; the first call in a session
returns a `{success:true, filled}` result (with no `submitted` field) and
flips the flag, the transition happens on any call that completes —
whether or not a submit button was found and clicked — and every subsequent
call is rejected with `{success:false, error:"Form already submitted"}`
without touching the DOM. -/
theorem c2_submission_state_machine (vals : SignupVals) (dom : Dom) :
    (fillSignupFormExecute false vals dom).submittedFlag = true ∧
    (fillSignupFormExecute false vals dom).result.isOk = true ∧
    fillSignupFormExecute true vals dom =
      { result := .err "Form already submitted", submittedFlag := true,
        actions := [] } := by
  refine ⟨?_, ?_, rfl⟩ <;> simp [fillSignupFormExecute, FillResult.isOk]

/- ----------------- C3 ----------------- -/

/-- A confirm-password input identified only by its placeholder. -/
def c3ConfirmEl : Elem :=
  { tag := "input", typeAttr := some "password",
    placeholder := some "Confirm Password", width := 100, height := 20 }

/-- A password input identified only by its placeholder. -/
def c3PasswordEl : Elem :=
  { tag := "input", typeAttr := some "password",
    placeholder := some "Password", width := 100, height := 20 }

/-- A signup DOM in which the confirm-password input precedes the password
input and neither carries a `name` or `id`. -/
def c3Dom : Dom := [c3ConfirmEl, c3PasswordEl]

/-- Counterexample to C3 as stated: `c3Dom` contains both a password input
and a confirm-password input, yet both strategy lists resolve to the same
element — the password list's `input[placeholder*="password" i]` candidate
(which has no "confirm" exclusion) matches the confirm input's placeholder
"Confirm Password" first in document order. -/
theorem c3_counterexample :
    c3PasswordEl ∈ c3Dom ∧ c3ConfirmEl ∈ c3Dom ∧ c3PasswordEl ≠ c3ConfirmEl ∧
    resolveElem c3Dom passwordSelectors = some c3ConfirmEl ∧
    resolveElem c3Dom confirmSelectors = some c3ConfirmEl := by
  decide

/-- Claim C3 (amended): only the final password candidate is disjoint from
the confirm list by construction — any element matched by
`input[type="password"]:not([name*="confirm" i]):not([id*="confirm" i]):not([placeholder*="confirm" i])`
is matched by none of the three confirmPassword candidates; the earlier
password candidates (in particular the placeholder one) carry no "confirm"
exclusion, so the two lists as a whole can resolve to the same element. -/
theorem c3_typed_password_disjoint (e : Elem) (h : pwSelTyped e = true) :
    cpSelName e = false ∧ cpSelId e = false ∧ cpSelPlaceholder e = false := by
  unfold pwSelTyped at h
  simp only [Bool.and_eq_true, Bool.not_eq_true'] at h
  obtain ⟨⟨⟨⟨hinput, _⟩, hname⟩, hid⟩, hph⟩ := h
  refine ⟨?_, ?_, ?_⟩
  · unfold cpSelName
    rw [hname, Bool.and_false]
  · unfold cpSelId
    cases hcase : e.idAttr with
    | none => rfl
    | some i =>
      rw [hcase] at hid
      by_contra hne
      have : i = "confirmPassword" := by
        simpa using hne
      rw [this] at hid
      exact absurd hid (by decide)
  · unfold cpSelPlaceholder
    rw [hph, Bool.and_false]

/-- Witness for the amended C3 at a concrete input: the password element of
the counterexample DOM satisfies the confirm-excluding candidate, and is
therefore matched by no confirmPassword candidate. -/
theorem c3_typed_password_disjoint_witness :
    pwSelTyped c3PasswordEl = true ∧
    (cpSelName c3PasswordEl = false ∧ cpSelId c3PasswordEl = false ∧
      cpSelPlaceholder c3PasswordEl = false) :=
  ⟨by decide, c3_typed_password_disjoint c3PasswordEl (by decide)⟩

/- ----------------- C10: process-level trace over the tools ----------------- -/

/-- The process-wide mutable state relevant to the tools of part_000: the
module-level `formSubmitted` flag (line 117) and whether a browser session
is live. -/
structure ProcState where
  formSubmitted : Bool
  browserLive : Bool
deriving Repr, DecidableEq

/-- A tool invocation of part_000's agent, with the page DOM at call time
where it matters. -/
inductive ToolCall where
  | fill (vals : SignupVals) (dom : Dom)
  | finalize
  | launch
  | openUrl (url : String)
  | clickSb (label : String) (dom : Dom)
  | analyze
deriving Repr

/-- Observable output of a tool invocation, keeping only what C10 needs:
fill results are distinguished, all other outputs are opaque. -/
inductive ToolOut where
  | fillOut (r : FillResult)
  | otherOut
deriving Repr, DecidableEq

/-- One tool invocation: `fill` runs `fillSignupFormExecute` against the
flag; `finalize` runs `closeBrowser` (clearing only the session handle,
part_000 lines 212-220 and 23-28); `launch` re-creates a session; no
operation writes `formSubmitted` except `fill`. -/
def stepTool (s : ProcState) : ToolCall → ProcState × ToolOut
  | .fill vals dom =>
    let o := fillSignupFormExecute s.formSubmitted vals dom
    ({ s with formSubmitted := o.submittedFlag }, .fillOut o.result)
  | .finalize => ({ s with browserLive := false }, .otherOut)
  | .launch => ({ s with browserLive := true }, .otherOut)
  | .openUrl _ => (s, .otherOut)
  | .clickSb _ _ => (s, .otherOut)
  | .analyze => (s, .otherOut)

/-- Run a sequence of tool calls, collecting the outputs. -/
def runTools (s : ProcState) : List ToolCall → ProcState × List ToolOut
  | [] => (s, [])
  | c :: cs =>
    let (s1, o) := stepTool s c
    let (s2, os) := runTools s1 cs
    (s2, o :: os)

/-- Every fill output in a list of tool outputs is the "Form already
submitted" rejection. -/
def fillOutputsAllRejected (outs : List ToolOut) : Bool :=
  outs.all fun o =>
    match o with
    | .fillOut r => r == FillResult.err "Form already submitted"
    | .otherOut => true

theorem fill_flag_after_step (s : ProcState) (vals : SignupVals) (dom : Dom) :
    (stepTool s (ToolCall.fill vals dom)).1.formSubmitted = true := by
  cases h : s.formSubmitted <;>
    simp [stepTool, fillSignupFormExecute, h]

theorem submitted_flag_sticky (calls : List ToolCall) :
    ∀ s : ProcState, s.formSubmitted = true →
      (runTools s calls).1.formSubmitted = true ∧
        fillOutputsAllRejected (runTools s calls).2 = true := by
  induction calls with
  | nil => intro s hs; exact ⟨hs, rfl⟩
  | cons c cs ih =>
    intro s hs
    cases c with
    | fill vals dom =>
      have hstep : stepTool s (ToolCall.fill vals dom) =
          (s, ToolOut.fillOut (FillResult.err "Form already submitted")) := by
        cases s with
        | mk f b =>
          simp only at hs
          subst hs
          simp [stepTool, fillSignupFormExecute]
      obtain ⟨h1, h2⟩ := ih s hs
      simp [runTools, hstep, fillOutputsAllRejected] at h2 ⊢
      exact ⟨h1, h2⟩
    | finalize =>
      obtain ⟨h1, h2⟩ := ih { s with browserLive := false } hs
      simp [runTools, stepTool, fillOutputsAllRejected] at h2 ⊢
      exact ⟨h1, h2⟩
    | launch =>
      obtain ⟨h1, h2⟩ := ih { s with browserLive := true } hs
      simp [runTools, stepTool, fillOutputsAllRejected] at h2 ⊢
      exact ⟨h1, h2⟩
    | openUrl url =>
      obtain ⟨h1, h2⟩ := ih s hs
      simp [runTools, stepTool, fillOutputsAllRejected] at h2 ⊢
      exact ⟨h1, h2⟩
    | clickSb label dom =>
      obtain ⟨h1, h2⟩ := ih s hs
      simp [runTools, stepTool, fillOutputsAllRejected] at h2 ⊢
      exact ⟨h1, h2⟩
    | analyze =>
      obtain ⟨h1, h2⟩ := ih s hs
      simp [runTools, stepTool, fillOutputsAllRejected] at h2 ⊢
      exact ⟨h1, h2⟩

/-- Claim C10: the "form already submitted" flag is process-wide and is
cleared by no operation — finalize_session and browser close included:
after any fill_signup_form call completes its submit step, every later
fill_signup_form call in any continuation of the process (finalizing and
relaunching sessions freely) is rejected with
`{success:false, error:"Form already submitted"}`, and the flag is still
set at the end. -/
theorem c10_flag_never_cleared (s : ProcState) (vals : SignupVals) (dom : Dom)
    (calls : List ToolCall) :
    (stepTool s (ToolCall.fill vals dom)).1.formSubmitted = true ∧
    fillOutputsAllRejected
      (runTools (stepTool s (ToolCall.fill vals dom)).1 calls).2 = true ∧
    (runTools (stepTool s (ToolCall.fill vals dom)).1 calls).1.formSubmitted
      = true := by
  have h1 := fill_flag_after_step s vals dom
  obtain ⟨h2, h3⟩ := submitted_flag_sticky calls _ h1
  exact ⟨h1, h3, h2⟩

/- ----------------- C6: tool error boundary ----------------- -/

/-- The `{success, error?}` shape of a structured tool result. -/
structure ToolOutcome where
  success : Bool
  error : Option String
deriving Repr, DecidableEq

/-- The `try { body } catch (err) { return {success:false, error:err.message} }`
wrapper that part_000 places around analyze_page, click_sidebar,
fill_signup_form and open_url: a failing body never escapes, it becomes a
structured failure result. -/
def tryCatchTool (body : Except String ToolOutcome) : Except String ToolOutcome :=
  match body with
  | Except.ok r => Except.ok r
  | Except.error e => Except.ok { success := false, error := some e }

/-- `openURL.execute` (part_000 lines 197-210) at the effect level: the
navigation either succeeds or fails with a message, and the whole body is
wrapped in try/catch. -/
def openURLExecute (nav : Except String Unit) : Except String ToolOutcome :=
  tryCatchTool (nav.map fun _ => { success := true, error := none })

/-- `finalizeSession.execute` (part_000 lines 212-220): `await closeBrowser()`
then return success — with no try/catch around the body, so a failing close
propagates out of the tool. -/
def finalizeSessionExecute (close : Except String Unit) :
    Except String ToolOutcome :=
  match close with
  | Except.ok _ => Except.ok { success := true, error := none }
  | Except.error e => Except.error e

/-- A tool invocation threw an exception past the tool boundary instead of
returning a structured result. -/
def throwsPast (r : Except String ToolOutcome) : Bool :=
  match r with
  | Except.error _ => true
  | Except.ok _ => false

/-- Counterexample to C6 as stated: when closing the browser fails,
finalize_session rethrows the failure past the tool boundary instead of
returning a structured `{success:false, error}` result — so the claim's
"every tool exposed to the agent, including finalize_session" is false. -/
theorem c6_counterexample :
    finalizeSessionExecute (Except.error "close failed") =
      Except.error "close failed" ∧
    throwsPast (finalizeSessionExecute (Except.error "close failed")) = true := by
  exact ⟨rfl, rfl⟩

/-- Claim C6 (amended): every tool whose body is wrapped in try/catch
(open_url, analyze_page, click_sidebar, fill_signup_form) surfaces any
failure as a structured `{success:false, error}` result and never throws
past the tool boundary; finalize_session alone has no such wrapper and
rethrows a close failure. -/
theorem c6_error_boundary (nav : Except String Unit)
    (body : Except String ToolOutcome) :
    throwsPast (openURLExecute nav) = false ∧
    throwsPast (tryCatchTool body) = false ∧
    (∀ msg : String, nav = Except.error msg →
      openURLExecute nav = Except.ok { success := false, error := some msg }) ∧
    (∀ msg : String,
      finalizeSessionExecute (Except.error msg) = Except.error msg) := by
  refine ⟨?_, ?_, ?_, fun msg => rfl⟩
  · cases nav <;> rfl
  · cases body <;> rfl
  · intro msg h
    rw [h]
    rfl

/-- Witness for the amended C6 at concrete inputs: a failing navigation is
caught and surfaced as `{success:false, error}`, and a failing close is
rethrown. -/
theorem c6_error_boundary_witness :
    throwsPast (openURLExecute (Except.error "nav failed")) = false ∧
    openURLExecute (Except.error "nav failed") =
      Except.ok { success := false, error := some "nav failed" } ∧
    finalizeSessionExecute (Except.error "boom") = Except.error "boom" := by
  refine ⟨(c6_error_boundary (Except.error "nav failed") (Except.ok ⟨true, none⟩)).1,
    (c6_error_boundary (Except.error "nav failed")
      (Except.ok ⟨true, none⟩)).2.2.1 "nav failed" rfl,
    (c6_error_boundary (Except.error "nav failed")
      (Except.ok ⟨true, none⟩)).2.2.2 "boom"⟩

/- ------------- Page summarizers (part_000 31-55, part_001 44-104) -------- -/

/-- `isVisible` (part_000 lines 34-37, part_001 lines 48-51):
`rect.width > 1 && rect.height > 1`. -/
def isVisible : Sel := fun e => decide (1 < e.width) && decide (1 < e.height)

/-- JavaScript `a || b` on strings: first non-empty ("truthy") operand. -/
def jsOr (a b : String) : String := if a == "" then b else a

/-- `getAttribute` result as a string: absent attribute behaves as `''`
under `||`. -/
def optStr : Option String → String
  | some s => s
  | none => ""

/-- JavaScript `a || null` on an optional string: `none` when absent or
empty. -/
def optNonempty : Option String → Option String
  | some s => if s == "" then none else some s
  | none => none

/-- `a || b || null` on optional strings. -/
def jsOrOpt (a b : Option String) : Option String :=
  match optNonempty a with
  | some v => some v
  | none => optNonempty b

/-- JavaScript whitespace characters relevant to `trim`. -/
def isWhite (c : Char) : Bool := c == ' ' || c == '\t' || c == '\n' || c == '\r'

/-- `String.prototype.trim` over the character list. -/
def trimChars (s : String) : String :=
  String.mk (((s.toList.dropWhile isWhite).reverse.dropWhile isWhite).reverse)

/-- `String.prototype.slice(0, n)` over the character list. -/
def takeChars (s : String) (n : Nat) : String := String.mk (s.toList.take n)

/-- `document.querySelectorAll('h1,h2,h3')`. -/
def headingTag : Sel := fun e => e.tag == "h1" || e.tag == "h2" || e.tag == "h3"

/-- `document.querySelectorAll('a,button,input[type=button],input[type=submit]')`. -/
def clickableTag : Sel := fun e =>
  e.tag == "a" || e.tag == "button"
    || (e.tag == "input"
        && (e.typeAttr == some "button" || e.typeAttr == some "submit"))

/-- `document.querySelectorAll('input,textarea,select')`. -/
def inputLikeTag : Sel := fun e =>
  e.tag == "input" || e.tag == "textarea" || e.tag == "select"

/-- part_000 clickable descriptor: text and centre coordinates. -/
structure ClickDescr where
  text : String
  x : Nat
  y : Nat
deriving Repr, DecidableEq

/-- part_000 clickable mapping (lines 41-47):
`(el.innerText || el.value || el.title || '').trim().slice(0, 80)` and the
rounded rect centre. -/
def mkClick0 (e : Elem) : ClickDescr :=
  { text := takeChars (trimChars (jsOr e.text (jsOr (optStr e.value) (optStr e.titleAttr)))) 80,
    x := e.left + e.width / 2,
    y := e.top + e.height / 2 }

/-- part_000 input descriptor (lines 49-52). -/
structure InputDescr where
  type : String
  placeholder : Option String
deriving Repr, DecidableEq

/-- part_000 input mapping: `el.type || el.tagName.toLowerCase()` and
`el.placeholder || null` (tags are stored lower-case in the model). -/
def mkInput0 (e : Elem) : InputDescr :=
  { type := jsOr (optStr e.typeAttr) e.tag,
    placeholder := optNonempty e.placeholder }

/-- The part_000 page summary (lines 31-55). -/
structure PageSummary where
  title : String
  url : String
  headings : List String
  clickable : List ClickDescr
  inputs : List InputDescr
deriving Repr, DecidableEq

/-- part_000 headings (line 38): map to trimmed text, drop empties,
`slice(0, 10)`. -/
def headingsOf (dom : Dom) : List String :=
  (((dom.filter headingTag).map fun h => trimChars h.text).filter
    fun s => !(s == "")).take 10

/-- part_000 clickable (lines 39-48): filter visible, map to descriptors,
`slice(0, 30)`. -/
def clickableOf (dom : Dom) : List ClickDescr :=
  (((dom.filter clickableTag).filter isVisible).map mkClick0).take 30

/-- part_000 inputs (lines 49-52): map to descriptors (no visibility
filter), `slice(0, 40)`. -/
def inputsOf (dom : Dom) : List InputDescr :=
  ((dom.filter inputLikeTag).map mkInput0).take 40

/-- `extractPageSummary` of part_000 (lines 31-55). -/
def extractPageSummary (title url : String) (dom : Dom) : PageSummary :=
  { title := title, url := url, headings := headingsOf dom,
    clickable := clickableOf dom, inputs := inputsOf dom }

/-- The structured result of `analyzePage.execute` (part_000 lines 66-87),
screenshot payload omitted: a fresh summary of the current DOM on every
call — part_000 keeps no summary cache. -/
structure AnalyzeResult where
  success : Bool
  analysis : PageSummary
deriving Repr, DecidableEq

/-- `analyzePage.execute` (part_000 lines 70-86) on the happy path: always
gathers a fresh DOM summary first. -/
def analyzePageExecute (title url : String) (dom : Dom) : AnalyzeResult :=
  { success := true, analysis := extractPageSummary title url dom }

/-- part_001 clickable descriptor (lines 68-75): text, tag, centre, size. -/
structure ClickDescr1 where
  text : String
  tag : String
  x : Nat
  y : Nat
  w : Nat
  h : Nat
deriving Repr, DecidableEq

/-- part_001 clickable text (line 64):
`(el.innerText || el.value || el.getAttribute('aria-label') || el.getAttribute('title') || '').trim()`. -/
def text1 (e : Elem) : String :=
  trimChars (jsOr e.text (jsOr (optStr e.value)
    (jsOr (optStr e.ariaLabel) (optStr e.titleAttr))))

/-- part_001 clickable descriptor construction for a given non-empty text. -/
def mkClick1 (e : Elem) (t : String) : ClickDescr1 :=
  { text := takeChars t 80, tag := e.tag,
    x := e.left + e.width / 2, y := e.top + e.height / 2,
    w := e.width, h := e.height }

/-- part_001 clickable loop (lines 60-80): walk the candidates in document
order, skip elements with empty text or failing the visibility test, push a
descriptor otherwise, and break once 30 descriptors are collected. -/
def clickLoop1 : List ClickDescr1 → Dom → List ClickDescr1
  | acc, [] => acc
  | acc, e :: rest =>
    if text1 e == "" then clickLoop1 acc rest
    else if !isVisible e then clickLoop1 acc rest
    else
      let acc2 := acc ++ [mkClick1 e (text1 e)]
      if 30 ≤ acc2.length then acc2 else clickLoop1 acc2 rest

/-- part_001 input descriptor (lines 85-94). -/
structure InputDescr1 where
  type : String
  name : Option String
  placeholder : Option String
  label : Option String
deriving Repr, DecidableEq

/-- part_001 associated-label lookup (lines 89-94):
`document.querySelector('label[for=id]')` and its trimmed text. -/
def labelFor (dom : Dom) (e : Elem) : Option String :=
  match optNonempty e.idAttr with
  | none => none
  | some i =>
    (dom.find? fun l => l.tag == "label" && l.forAttr == some i).map
      fun l => trimChars l.text

/-- part_001 input mapping (lines 85-95). -/
def mkInput1 (dom : Dom) (e : Elem) : InputDescr1 :=
  { type := if e.tag == "input" then jsOr (optStr e.typeAttr) "text" else e.tag,
    name := jsOrOpt e.nameAttr e.idAttr,
    placeholder := optNonempty e.placeholder,
    label := labelFor dom e }

/-- The part_001 page summary (lines 44-104). -/
structure PageSummary1 where
  title : String
  url : String
  headings : List String
  clickable : List ClickDescr1
  inputs : List InputDescr1
deriving Repr, DecidableEq

/-- part_001 headings (lines 54-57): `slice(0, 10)`, map to trimmed text,
drop empties. -/
def headings1 (dom : Dom) : List String :=
  (((dom.filter headingTag).take 10).map fun h => trimChars h.text).filter
    fun s => !(s == "")

/-- part_001 clickable (lines 60-80). -/
def clickable1 (dom : Dom) : List ClickDescr1 :=
  clickLoop1 [] (dom.filter clickableTag)

/-- part_001 inputs (lines 83-96): `slice(0, 40)`, map to descriptors, then
`filter(Boolean)` — which keeps every descriptor object. -/
def inputs1 (dom : Dom) : List InputDescr1 :=
  (((dom.filter inputLikeTag).take 40).map (mkInput1 dom)).filter fun _ => true

/-- `extractPageSummary` of part_001 (lines 44-104). -/
def extractPageSummary1 (title url : String) (dom : Dom) : PageSummary1 :=
  { title := title, url := url, headings := headings1 dom,
    clickable := clickable1 dom, inputs := inputs1 dom }

/- ------------- part_001 summary cache (lines 162, 184-193) ------------- -/

/-- An entry of `summaryCache`: the stored summary and its timestamp. -/
structure CacheEntry where
  summary : PageSummary1
  ts : Nat
deriving Repr, DecidableEq

/-- `summaryCache`, a map from key (url + scroll position) to entry. -/
abbrev Cache := List (String × CacheEntry)

/-- `summaryCache.get(key)` (also serving as `has`). -/
def cacheGet (c : Cache) (k : String) : Option CacheEntry :=
  (c.find? fun p => p.1 == k).map fun p => p.2

/-- `summaryCache.set(key, entry)`. -/
def cacheSet : Cache → String → CacheEntry → Cache
  | [], k, v => [(k, v)]
  | (k0, v0) :: rest, k, v =>
    if k0 == k then (k, v) :: rest else (k0, v0) :: cacheSet rest k v

/-- The summary step of `takeScreenshotTool.execute` (part_001 lines
186-193): serve the cached summary when the key's entry is younger than
8000 ms, otherwise recompute from the current DOM and store the result. -/
def summaryStep (c : Cache) (key : String) (now : Nat) (title url : String)
    (dom : Dom) : PageSummary1 × Cache :=
  match cacheGet c key with
  | some entry =>
    if now - entry.ts < 8000 then (entry.summary, c)
    else
      let s := extractPageSummary1 title url dom
      (s, cacheSet c key { summary := s, ts := now })
  | none =>
    let s := extractPageSummary1 title url dom
    (s, cacheSet c key { summary := s, ts := now })

/- ------------- part_001 click_sidebar (lines 215-258) ------------- -/

/-- Playwright `text="label"` (quoted): exact, whitespace-trimmed match on
the element's text. -/
def quotedTextSel (label : String) : Sel := fun e => trimChars e.text == label

/-- CSS `[aria-label="label"]`. -/
def ariaLabelSel (label : String) : Sel := fun e => e.ariaLabel == some label

/-- CSS `[data-testid="label"]`. -/
def dataTestidSel (label : String) : Sel := fun e => e.dataTestid == some label

/-- The ordered candidate list of part_001's `clickSidebar.execute`
(lines 226-233). -/
def sidebarSelectors1 (label : String) : List Sel :=
  [quotedTextSel label, textSel label, aHasText label, buttonHasText label,
    ariaLabelSel label, dataTestidSel label]

/-- The structured result of part_001's `clickSidebar.execute`: `method` is
`"locator"` or `"coords"` on success. -/
structure ClickResult1 where
  success : Bool
  clicked : Option String
  method : Option String
  error : Option String
deriving Repr, DecidableEq

/-- part_001's `clickSidebar.execute` (lines 221-257): try the locator
candidates first (count>0, first wins); when none matches, fall back to the
page summary and click by coordinates the first clickable descriptor whose
text contains the label case-insensitively; only when that also fails
return `{success:false, error:"not_found"}`. -/
def clickSidebar1Execute (label title url : String) (dom : Dom) : ClickResult1 :=
  match resolveIdx dom 0 (sidebarSelectors1 label) with
  | some _ =>
    { success := true, clicked := some label, method := some "locator",
      error := none }
  | none =>
    match (extractPageSummary1 title url dom).clickable.find?
        (fun c => ciContains c.text label) with
    | some _ =>
      { success := true, clicked := some label, method := some "coords",
        error := none }
    | none =>
      { success := false, clicked := none, method := none,
        error := some "not_found" }

/- ----------------- C5 ----------------- -/

/-- A visible button with empty inner text whose only label-bearing
attribute is `title="Sign Up"`: no locator candidate of either
click_sidebar variant matches it, but part_001's summary fallback derives
its text from the title attribute. -/
def c5FallbackBtn : Elem :=
  { tag := "button", titleAttr := some "Sign Up", width := 50, height := 20 }

def c5FallbackDom : Dom := [c5FallbackBtn]

/-- Counterexample to C5 as stated: (a) the not_found result of part_000's
click_sidebar carries no identifier at all — `clicked` and `selectorIdx`
are null and `error` is the literal "not_found"; (b) on a DOM where no
candidate selector of part_001's click_sidebar matches any element, the
tool still returns success through the coordinate fallback instead of
`{success:false, error:"not_found"}`. -/
theorem c5_counterexample :
    clickSidebarExecute "Sign Up" [] =
      { success := false, clicked := none, selectorIdx := none,
        error := some "not_found" } ∧
    (∀ s ∈ sidebarSelectors1 "Sign Up", countMatches c5FallbackDom s = 0) ∧
    clickSidebar1Execute "Sign Up" "t" "u" c5FallbackDom =
      { success := true, clicked := some "Sign Up", method := some "coords",
        error := none } := by
  decide

/-- Claim C5 (amended): part_000's click_sidebar returns the literal
recoverable result `{success:false, error:"not_found"}` — carrying no
identifier — when no candidate selector matches any element, and
`{success:true, clicked:label}` when an anchor containing the label text
exists; part_001's click_sidebar returns not_found only when, in addition,
its page-summary coordinate fallback finds no visible clickable descriptor
whose text contains the label, and returns success via coordinates when the
fallback does find one. -/
theorem c5_not_found_and_fallback (label title url : String) (dom : Dom) :
    ((∀ s ∈ sidebarSelectors label, countMatches dom s = 0) →
      clickSidebarExecute label dom =
        { success := false, clicked := none, selectorIdx := none,
          error := some "not_found" }) ∧
    ((∃ e ∈ dom, e.tag = "a" ∧ ciContains e.text label = true) →
      (clickSidebarExecute label dom).success = true ∧
        (clickSidebarExecute label dom).clicked = some label) ∧
    ((∀ s ∈ sidebarSelectors1 label, countMatches dom s = 0) →
      ((extractPageSummary1 title url dom).clickable.find?
        (fun c => ciContains c.text label)) = none →
      clickSidebar1Execute label title url dom =
        { success := false, clicked := none, method := none,
          error := some "not_found" }) ∧
    ((∀ s ∈ sidebarSelectors1 label, countMatches dom s = 0) →
      ∀ c : ClickDescr1,
        ((extractPageSummary1 title url dom).clickable.find?
          (fun cc => ciContains cc.text label)) = some c →
        clickSidebar1Execute label title url dom =
          { success := true, clicked := some label, method := some "coords",
            error := none }) := by
  refine ⟨?_, ?_, ?_, ?_⟩
  · intro hz
    have hnone : ∀ s ∈ sidebarSelectors label, dom.find? s = none := fun s hs =>
      (countMatches_eq_zero_iff dom s).mp (hz s hs)
    unfold clickSidebarExecute
    rw [resolveIdx_all_none dom (sidebarSelectors label) 0 hnone]
  · rintro ⟨e, he, _, htext⟩
    have hsome : (dom.find? (textSel label)).isSome = true := by
      rw [List.find?_isSome]
      exact ⟨e, he, htext⟩
    obtain ⟨w, hw⟩ := Option.isSome_iff_exists.mp hsome
    unfold clickSidebarExecute sidebarSelectors
    simp [resolveIdx, hw]
  · intro hz hfb
    have hnone : ∀ s ∈ sidebarSelectors1 label, dom.find? s = none := fun s hs =>
      (countMatches_eq_zero_iff dom s).mp (hz s hs)
    unfold clickSidebar1Execute
    rw [resolveIdx_all_none dom (sidebarSelectors1 label) 0 hnone, hfb]
  · intro hz c hfb
    have hnone : ∀ s ∈ sidebarSelectors1 label, dom.find? s = none := fun s hs =>
      (countMatches_eq_zero_iff dom s).mp (hz s hs)
    unfold clickSidebar1Execute
    rw [resolveIdx_all_none dom (sidebarSelectors1 label) 0 hnone, hfb]

/-- Witness for the amended C5 at concrete inputs: part_000 returns success
with the label on the anchor DOM; on the empty DOM part_001 (all selectors
zero, empty fallback) returns the literal not_found; on the title-only
button DOM part_001 returns success via coordinates. -/
theorem c5_not_found_and_fallback_witness :
    ((clickSidebarExecute "Sign Up" c5Dom).success = true ∧
      (clickSidebarExecute "Sign Up" c5Dom).clicked = some "Sign Up") ∧
    clickSidebar1Execute "Sign Up" "t" "u" [] =
      { success := false, clicked := none, method := none,
        error := some "not_found" } ∧
    clickSidebar1Execute "Sign Up" "t" "u" c5FallbackDom =
      { success := true, clicked := some "Sign Up", method := some "coords",
        error := none } := by
  refine ⟨(c5_not_found_and_fallback "Sign Up" "t" "u" c5Dom).2.1 (by decide),
    (c5_not_found_and_fallback "Sign Up" "t" "u" []).2.2.1 (by decide) (by decide),
    (c5_not_found_and_fallback "Sign Up" "t" "u" c5FallbackDom).2.2.2 (by decide)
      (mkClick1 c5FallbackBtn (text1 c5FallbackBtn)) (by decide)⟩

/- ----------------- C4 ----------------- -/

theorem clickLoop1_length_le (dom : Dom) :
    ∀ acc : List ClickDescr1, acc.length < 30 →
      (clickLoop1 acc dom).length ≤ 30 := by
  induction dom with
  | nil => intro acc hacc; exact Nat.le_of_lt (by simpa [clickLoop1] using hacc)
  | cons e rest ih =>
    intro acc hacc
    by_cases ht : text1 e == ""
    · simpa [clickLoop1, ht] using ih acc hacc
    · by_cases hv : isVisible e
      · by_cases hbreak : 29 ≤ acc.length
        · simp [clickLoop1, ht, hv, hbreak]
          omega
        · simp only [clickLoop1, ht, hv]
          simp only [Bool.not_eq_true] at ht
          simp [ht, hv, List.length_append, hbreak]
          exact ih (acc ++ [mkClick1 e (text1 e)]) (by simp; omega)
      · simpa [clickLoop1, ht, hv] using ih acc hacc

theorem clickLoop1_sublist (dom : Dom) :
    ∀ acc : List ClickDescr1, ∃ sub : Dom, sub.Sublist dom ∧
      clickLoop1 acc dom = acc ++ sub.map fun e => mkClick1 e (text1 e) := by
  induction dom with
  | nil => intro acc; exact ⟨[], List.Sublist.refl [], by simp [clickLoop1]⟩
  | cons e rest ih =>
    intro acc
    by_cases ht : text1 e == ""
    · obtain ⟨sub, hsub, heq⟩ := ih acc
      exact ⟨sub, hsub.cons e, by simpa [clickLoop1, ht] using heq⟩
    · by_cases hv : isVisible e
      · by_cases hbreak : 29 ≤ acc.length
        · refine ⟨[e], (List.nil_sublist rest).cons₂ e, ?_⟩
          simp [clickLoop1, ht, hv, hbreak]
        · obtain ⟨sub, hsub, heq⟩ := ih (acc ++ [mkClick1 e (text1 e)])
          refine ⟨e :: sub, hsub.cons₂ e, ?_⟩
          simp only [clickLoop1, ht, hv]
          simp only [Bool.not_eq_true] at ht
          simp [ht, hv, List.length_append, hbreak]
          simpa [List.append_assoc] using heq
      · obtain ⟨sub, hsub, heq⟩ := ih acc
        exact ⟨sub, hsub.cons e, by simpa [clickLoop1, ht, hv] using heq⟩

/-- Claim C4: for every DOM, both summarizers' collections respect their
fixed caps — at most 10 headings, 30 clickable descriptors and 40 input
descriptors, no matter how many elements match — and each collection
preserves DOM encounter order: it is the image of a sublist of the DOM (or
of the trimmed heading texts), and sublists preserve order. -/
theorem c4_summary_caps_and_order (title url : String) (dom : Dom) :
    (extractPageSummary title url dom).headings.length ≤ 10 ∧
    (extractPageSummary title url dom).clickable.length ≤ 30 ∧
    (extractPageSummary title url dom).inputs.length ≤ 40 ∧
    (extractPageSummary title url dom).headings.Sublist
      ((dom.filter headingTag).map fun h => trimChars h.text) ∧
    (∃ sub : Dom, sub.Sublist dom ∧
      (extractPageSummary title url dom).clickable = sub.map mkClick0) ∧
    (∃ sub : Dom, sub.Sublist dom ∧
      (extractPageSummary title url dom).inputs = sub.map mkInput0) ∧
    (extractPageSummary1 title url dom).headings.length ≤ 10 ∧
    (extractPageSummary1 title url dom).clickable.length ≤ 30 ∧
    (extractPageSummary1 title url dom).inputs.length ≤ 40 ∧
    (extractPageSummary1 title url dom).headings.Sublist
      ((dom.filter headingTag).map fun h => trimChars h.text) ∧
    (∃ sub : Dom, sub.Sublist dom ∧
      (extractPageSummary1 title url dom).clickable =
        sub.map fun e => mkClick1 e (text1 e)) ∧
    (∃ sub : Dom, sub.Sublist dom ∧
      (extractPageSummary1 title url dom).inputs = sub.map (mkInput1 dom)) := by
  refine ⟨List.length_take_le _ _, List.length_take_le _ _,
    List.length_take_le _ _, ?_, ?_, ?_, ?_, ?_, ?_, ?_, ?_, ?_⟩
  · exact (List.take_sublist _ _).trans (List.filter_sublist _)
  · refine ⟨((dom.filter clickableTag).filter isVisible).take 30, ?_, ?_⟩
    · exact (List.take_sublist _ _).trans
        ((List.filter_sublist _).trans (List.filter_sublist _))
    · show (((dom.filter clickableTag).filter isVisible).map mkClick0).take 30 = _
      rw [← List.map_take]
  · refine ⟨(dom.filter inputLikeTag).take 40, ?_, ?_⟩
    · exact (List.take_sublist _ _).trans (List.filter_sublist _)
    · show ((dom.filter inputLikeTag).map mkInput0).take 40 = _
      rw [← List.map_take]
  · exact (List.length_filter_le _ _).trans
      (by rw [List.length_map]; exact List.length_take_le _ _)
  · exact clickLoop1_length_le _ [] (by decide)
  · exact (List.length_filter_le _ _).trans
      (by rw [List.length_map]; exact List.length_take_le _ _)
  · refine (List.filter_sublist _).trans ?_
    rw [List.map_take]
    exact List.take_sublist _ _
  · obtain ⟨sub, hsub, heq⟩ := clickLoop1_sublist (dom.filter clickableTag) []
    exact ⟨sub, hsub.trans (List.filter_sublist _), by simpa using heq⟩
  · refine ⟨(dom.filter inputLikeTag).take 40, ?_, ?_⟩
    · exact (List.take_sublist _ _).trans (List.filter_sublist _)
    · show (((dom.filter inputLikeTag).take 40).map (mkInput1 dom)).filter
        (fun _ => true) = _
      simp

/- ----------------- C8 ----------------- -/

/-- An input with zero rendered width and height: invisible under the
summarizers' visibility test. -/
def c8HiddenInput : Elem :=
  { tag := "input", typeAttr := some "text", width := 0, height := 0 }

/-- A visible anchor for the C8 witness. -/
def c8Anchor : Elem :=
  { tag := "a", text := "Home", width := 40, height := 20 }

def c8Dom : Dom := [c8Anchor]

theorem clickLoop1_visible (dom : Dom) :
    ∀ (acc : List ClickDescr1) (d : ClickDescr1), d ∈ clickLoop1 acc dom →
      d ∈ acc ∨ ∃ v, v ∈ dom ∧ isVisible v = true ∧ d = mkClick1 v (text1 v) := by
  induction dom with
  | nil => intro acc d hd; exact Or.inl (by simpa [clickLoop1] using hd)
  | cons e rest ih =>
    intro acc d hd
    by_cases ht : text1 e == ""
    · rcases ih acc d (by simpa [clickLoop1, ht] using hd) with h | ⟨v, hv, hvis, hde⟩
      · exact Or.inl h
      · exact Or.inr ⟨v, List.mem_cons_of_mem e hv, hvis, hde⟩
    · by_cases hv : isVisible e
      · by_cases hbreak : 29 ≤ acc.length
        · have hd' : d ∈ acc ∨ d = mkClick1 e (text1 e) := by
            simp only [clickLoop1, ht, hv] at hd
            simp only [Bool.not_eq_true] at ht
            simpa [ht, hv, List.length_append, hbreak] using hd
          rcases hd' with h | h
          · exact Or.inl h
          · exact Or.inr ⟨e, List.mem_cons_self e rest, hv, h⟩
        · have hd' : d ∈ clickLoop1 (acc ++ [mkClick1 e (text1 e)]) rest := by
            simp only [clickLoop1, ht, hv] at hd
            simp only [Bool.not_eq_true] at ht
            simpa [ht, hv, List.length_append, hbreak] using hd
          rcases ih (acc ++ [mkClick1 e (text1 e)]) d hd' with h | ⟨v, hv2, hvis, hde⟩
          · rcases List.mem_append.mp h with h1 | h1
            · exact Or.inl h1
            · exact Or.inr ⟨e, List.mem_cons_self e rest, hv, by simpa using h1⟩
          · exact Or.inr ⟨v, List.mem_cons_of_mem e hv2, hvis, hde⟩
      · rcases ih acc d (by simpa [clickLoop1, ht, hv] using hd) with h | ⟨v, hv2, hvis, hde⟩
        · exact Or.inl h
        · exact Or.inr ⟨v, List.mem_cons_of_mem e hv2, hvis, hde⟩

/-- Counterexample to C8 as stated: a zero-size (invisible) input is NOT
excluded from the summary — the inputs collection of `extractPageSummary`
carries no visibility filter, so the hidden input's descriptor appears in
it (in both summarizer variants). -/
theorem c8_counterexample :
    isVisible c8HiddenInput = false ∧
    (extractPageSummary "t" "u" [c8HiddenInput]).inputs =
      [mkInput0 c8HiddenInput] ∧
    (extractPageSummary1 "t" "u" [c8HiddenInput]).inputs =
      [mkInput1 [c8HiddenInput] c8HiddenInput] := by
  decide

/-- Claim C8 (amended): in both summarizer variants the visibility filter
applies to the clickable collection only — every clickable descriptor of
part_000's `extractPageSummary` and of part_001's `extractPageSummary1`
comes from a visible element of the DOM — while the inputs collections are
not visibility-filtered: an input-like element at the head of the DOM
contributes the head input descriptor of either variant whether or not it
is visible. -/
theorem c8_visibility_filter (title url : String) (dom : Dom) (e : Elem) :
    (∀ d ∈ (extractPageSummary title url dom).clickable,
      ∃ v, v ∈ dom ∧ isVisible v = true ∧ d = mkClick0 v) ∧
    (∀ d ∈ (extractPageSummary1 title url dom).clickable,
      ∃ v, v ∈ dom ∧ isVisible v = true ∧ d = mkClick1 v (text1 v)) ∧
    (inputLikeTag e = true →
      (extractPageSummary title url (e :: dom)).inputs.head? =
        some (mkInput0 e)) ∧
    (inputLikeTag e = true →
      (extractPageSummary1 title url (e :: dom)).inputs.head? =
        some (mkInput1 (e :: dom) e)) := by
  refine ⟨?_, ?_, ?_, ?_⟩
  · intro d hd
    have hd1 : d ∈ ((dom.filter clickableTag).filter isVisible).map mkClick0 :=
      List.mem_of_mem_take hd
    obtain ⟨v, hv, hvd⟩ := List.mem_map.mp hd1
    obtain ⟨hv1, hv2⟩ := List.mem_filter.mp hv
    exact ⟨v, (List.mem_filter.mp hv1).1, hv2, hvd.symm⟩
  · intro d hd
    rcases clickLoop1_visible (dom.filter clickableTag) [] d hd with h | ⟨v, hv, hvis, hde⟩
    · exact absurd h (List.not_mem_nil d)
    · exact ⟨v, List.mem_of_mem_filter hv, hvis, hde⟩
  · intro he
    show ((((e :: dom).filter inputLikeTag).map mkInput0).take 40).head? =
      some (mkInput0 e)
    simp [List.filter_cons, he]
  · intro he
    show (((((e :: dom).filter inputLikeTag).take 40).map
        (mkInput1 (e :: dom))).filter (fun _ => true)).head? =
      some (mkInput1 (e :: dom) e)
    simp [List.filter_cons, he]

/-- Witness for the amended C8 at concrete inputs: the visible anchor's
descriptor traces back to a visible element in both summarizer variants,
and the hidden input still heads both inputs collections. -/
theorem c8_visibility_filter_witness :
    (∃ v, v ∈ c8Dom ∧ isVisible v = true ∧ mkClick0 c8Anchor = mkClick0 v) ∧
    (∃ v, v ∈ c8Dom ∧ isVisible v = true ∧
      mkClick1 c8Anchor (text1 c8Anchor) = mkClick1 v (text1 v)) ∧
    ((extractPageSummary "t" "u" (c8HiddenInput :: c8Dom)).inputs.head? =
      some (mkInput0 c8HiddenInput)) ∧
    ((extractPageSummary1 "t" "u" (c8HiddenInput :: c8Dom)).inputs.head? =
      some (mkInput1 (c8HiddenInput :: c8Dom) c8HiddenInput)) := by
  refine ⟨(c8_visibility_filter "t" "u" c8Dom c8HiddenInput).1
      (mkClick0 c8Anchor) (by decide),
    (c8_visibility_filter "t" "u" c8Dom c8HiddenInput).2.1
      (mkClick1 c8Anchor (text1 c8Anchor)) (by decide),
    (c8_visibility_filter "t" "u" c8Dom c8HiddenInput).2.2.1 (by decide),
    (c8_visibility_filter "t" "u" c8Dom c8HiddenInput).2.2.2 (by decide)⟩

/- ----------------- C9 ----------------- -/

/-- A heading element present only in the second call's DOM. -/
def c9H1 : Elem := { tag := "h1", text := "Welcome", width := 50, height := 20 }

/-- The summary computed and cached by a first call against an empty DOM. -/
def c9CachedSummary : PageSummary1 := extractPageSummary1 "t" "u" []

/-- The cache as left by that first call (timestamp 0). -/
def c9Cache : Cache := [("k", { summary := c9CachedSummary, ts := 0 })]

/-- Counterexample to C9 as stated: 100 ms after a summary was cached for
the same key, the take_screenshot analysis path returns the previously
computed summary even though the DOM has changed — the returned summary is
not the fresh summary of the current DOM. -/
theorem c9_counterexample :
    (summaryStep c9Cache "k" 100 "t" "u" [c9H1]).1 ≠
      extractPageSummary1 "t" "u" [c9H1] ∧
    (summaryStep c9Cache "k" 100 "t" "u" [c9H1]).1 =
      extractPageSummary1 "t" "u" [] := by
  decide

/-- Claim C9 (amended): part_000's analyze_page rebuilds the summary fresh
from the current DOM on every call (it keeps no cache, and producing the
summary only reads the DOM); part_001's take_screenshot path instead serves
the cached summary unchanged whenever the key's entry is younger than
8000 ms, and only recomputes from the current DOM (storing the result) when
the key is absent or the entry is stale. -/
theorem c9_fresh_vs_cached (c : Cache) (k : String) (now : Nat)
    (entry : CacheEntry) (title url : String) (dom : Dom) :
    (analyzePageExecute title url dom).analysis =
      extractPageSummary title url dom ∧
    (cacheGet c k = some entry → now - entry.ts < 8000 →
      summaryStep c k now title url dom = (entry.summary, c)) ∧
    (cacheGet c k = some entry → ¬(now - entry.ts < 8000) →
      summaryStep c k now title url dom =
        (extractPageSummary1 title url dom,
          cacheSet c k
            { summary := extractPageSummary1 title url dom, ts := now })) ∧
    (cacheGet c k = none →
      summaryStep c k now title url dom =
        (extractPageSummary1 title url dom,
          cacheSet c k
            { summary := extractPageSummary1 title url dom, ts := now })) := by
  refine ⟨rfl, ?_, ?_, ?_⟩
  · intro hget hfresh
    unfold summaryStep
    rw [hget]
    simp [hfresh]
  · intro hget hstale
    unfold summaryStep
    rw [hget]
    simp [hstale]
  · intro hget
    unfold summaryStep
    rw [hget]

/-- Witness for the amended C9 at concrete inputs: with a 100 ms old cache
entry the cached summary is served and the cache is untouched; with an
empty cache the fresh summary of the current DOM is computed and stored. -/
theorem c9_fresh_vs_cached_witness :
    summaryStep c9Cache "k" 100 "t" "u" [c9H1] = (c9CachedSummary, c9Cache) ∧
    summaryStep [] "k" 100 "t" "u" [c9H1] =
      (extractPageSummary1 "t" "u" [c9H1],
        cacheSet [] "k"
          { summary := extractPageSummary1 "t" "u" [c9H1], ts := 100 }) := by
  refine ⟨?_, ?_⟩
  · exact (c9_fresh_vs_cached c9Cache "k" 100
      { summary := c9CachedSummary, ts := 0 } "t" "u" [c9H1]).2.1 rfl (by decide)
  · exact (c9_fresh_vs_cached [] "k" 100
      { summary := c9CachedSummary, ts := 0 } "t" "u" [c9H1]).2.2.2 rfl

end UseBrowser
